import Mathlib

/-!
Verification of the combined-energy-api client library.

The Python sources (src/combined_energy/{utils,models,client,helpers,constants}.py)
are shallowly embedded below.  Conventions used throughout:

* Python floats are modelled as rationals (ℚ); timestamps as rationals or
  integers counting seconds.
* Fallible Python code is modelled in the `Except PyError` monad, where
  `PyError` mirrors the exception classes that can actually be raised
  (`ValueError`, `ZeroDivisionError`, `TypeError`, `IndexError`, pydantic
  validation failure, and the library's own auth/timeout errors).
* `Optional[X]` fields become `Option X`; Python truthiness of list fields
  (`if self.sample_seconds:`) is modelled by `truthyList`.
-/

namespace CombinedEnergy

/-- Exceptions observable from the embedded code paths. -/
inductive PyError where
  | valueError (msg : String)
  | zeroDivisionError
  | typeError
  | indexError
  | validationError
  | authError (msg : String)
  | timeoutError
deriving DecidableEq, Repr

/-! ## utils.py -/

/-- utils.py: `KWH_TO_KW: Final[float] = 3.6`. -/
def KWH_TO_KW : ℚ := 36 / 10

/-- utils.py `energy_to_power`: raises `ValueError` when `seconds <= 0.0`,
otherwise returns `energy * KWH_TO_KW / seconds`. -/
def energy_to_power (energy seconds : ℚ) : Except PyError ℚ :=
  if seconds ≤ 0 then .error (.valueError "Seconds must be a positive float.")
  else .ok (energy * KWH_TO_KW / seconds)

/-! ## models.py: Login -/

/-- models.py `Login`: the decoded login response.  `created` is the capture
time of the login (seconds); `expire_minutes` decodes the `expireMins` field. -/
structure Login where
  status : String
  expire_minutes : ℤ
  jwt : String
  created : ℤ
deriving DecidableEq, Repr

/-- models.py `Login.expires`: `created + timedelta(minutes=expire_minutes,
seconds=-expiry_window)`, in seconds. -/
def Login.expires (l : Login) (expiry_window : ℤ) : ℤ :=
  l.created + (l.expire_minutes * 60 - expiry_window)

/-! ## client.py -/

/-- client.py `_ensure_token` decision: a (re-)login happens when
`not self._jwt or now() > self._expires`.  Python string truthiness makes
`None` and the empty string both count as "no token"; the `or`
short-circuits, so `expires` is only consulted when a token is held. -/
def ensure_token_relogins (jwt : Option String) (expires : ℤ) (now : ℤ) : Bool :=
  (match jwt with
   | none => true
   | some s => s.isEmpty) || decide (expires < now)

/-- Raw JSON body of the login response, restricted to the fields
`CombinedEnergy.login` and `Login.model_validate` consult. -/
structure LoginResponse where
  status : Option String
  error : Option String
  expireMins : Option ℤ
  jwt : Option String
deriving DecidableEq, Repr

/-- client.py `login`: raises `CombinedEnergyAuthError(data.get("error",
"Login failed"))` when `data.get("status") != "ok"`, otherwise validates the
body into a `Login` (pydantic raises a validation error when a required
field is missing).  `now` is the capture time recorded in `Login.created`. -/
def login (data : LoginResponse) (now : ℤ) : Except PyError Login :=
  if data.status ≠ some "ok" then
    .error (.authError (data.error.getD "Login failed"))
  else
    match data.status, data.expireMins, data.jwt with
    | some st, some em, some j => .ok ⟨st, em, j, now⟩
    | _, _, _ => .error .validationError

/-- Result of a readings request as assembled by client.py `readings` /
`last_readings`: the parameters passed on to the readings endpoint.
`rangeEnd = none` models passing `None` (sent as the empty string). -/
structure ReadingsRequest where
  rangeStart : Option ℚ
  rangeEnd : Option ℚ
  increment : ℤ
deriving DecidableEq, Repr

/-- client.py `last_readings`: builds
`delta = timedelta(hours=hours, minutes=minutes, seconds=seconds)` and
raises `ValueError` when `not delta.total_seconds()` (i.e. when the total
is exactly zero), otherwise requests `readings(now() - delta, None,
increment)`.  Times are in seconds. -/
def last_readings (now : ℚ) (hours minutes seconds : ℚ) (increment : ℤ) :
    Except PyError ReadingsRequest :=
  let delta := hours * 3600 + minutes * 60 + seconds
  if delta = 0 then .error (.valueError "Either a time range must be provided")
  else .ok ⟨some (now - delta), none, increment⟩

/-- Raw JSON body of the LogSessionStart response, restricted to the field
`start_log_session` consults. -/
structure StatusResponse where
  status : Option String
deriving DecidableEq, Repr

/-- client.py `start_log_session`: the inner request either yields a JSON
body or raises; a `CombinedEnergyTimeoutError` is swallowed (warning logged,
`True` returned), any other exception propagates, and a successful body
yields `data.get("status") == "ok"`. -/
def start_log_session (result : Except PyError StatusResponse) : Except PyError Bool :=
  match result with
  | .ok data => .ok (data.status == some "ok")
  | .error .timeoutError => .ok true
  | .error e => .error e

/-! ## models.py: device readings decode (`DEVICE_TYPE_MAP`, `Readings._populate_devices`) -/

/-- The six specialised reading variants registered in models.py
`DEVICE_TYPE_MAP`. -/
inductive KnownDeviceModel where
  | combiner
  | solarPV
  | gridMeter
  | genericConsumer
  | waterHeater
  | energyBalance
deriving DecidableEq, Repr

/-- models.py `DEVICE_TYPE_MAP`, keyed by the string value of each
`DeviceType` enum member (`DeviceType` is a `str` enum, so dictionary
lookup with the raw wire string finds these entries). -/
def DEVICE_TYPE_MAP : List (String × KnownDeviceModel) :=
  [("COMBINER", .combiner),
   ("SOLAR_PV", .solarPV),
   ("GRID_METER", .gridMeter),
   ("GENERIC_CONSUMER", .genericConsumer),
   ("WATER_HEATER", .waterHeater),
   ("ENERGY_BALANCE", .energyBalance)]

/-- A raw device JSON object as far as `_populate_devices` inspects it:
`raw_device.get("deviceType")` (absent field gives `None`; the wire
discriminant is a string) plus an identifier standing for the remaining
payload, which the function only passes through verbatim. -/
structure RawDevice where
  deviceType : Option String
  payload : ℕ
deriving DecidableEq, Repr

/-- `DEVICE_TYPE_MAP.get(device_type_name)`: `None` when the discriminant is
absent or not a key of the map. -/
def device_type_map_get (name : Option String) : Option KnownDeviceModel :=
  match name with
  | none => none
  | some s => (DEVICE_TYPE_MAP.find? (fun p => p.1 == s)).map Prod.snd

/-- models.py `Readings._populate_devices`: one pass over the raw list;
a raw entry whose discriminant resolves in `DEVICE_TYPE_MAP` is decoded by
the matching pydantic constructor (`device_type(**raw_device)`), modelled
as the variant tag paired with the raw entry, guarded by the parametric
`validate` oracle standing for "the constructor raised no
`ValidationError`"; on validation failure or an unresolved discriminant the
raw entry is appended verbatim to the unknown bucket.  The function is
total: no exception escapes it. -/
def populate_devices (validate : KnownDeviceModel → RawDevice → Bool) :
    List RawDevice → List (KnownDeviceModel × RawDevice) × List RawDevice
  | [] => ([], [])
  | raw :: rest =>
    let r := populate_devices validate rest
    match device_type_map_get raw.deviceType with
    | some m =>
      if validate m raw then ((m, raw) :: r.1, r.2)
      else (r.1, raw :: r.2)
    | none => (r.1, raw :: r.2)

/-- Per-entry decode outcome of `_populate_devices` (the body of its loop,
restated for one entry): the decoded device when the discriminant is known
and validation succeeds, `none` otherwise. -/
def decode_one (validate : KnownDeviceModel → RawDevice → Bool) (raw : RawDevice) :
    Option (KnownDeviceModel × RawDevice) :=
  match device_type_map_get raw.deviceType with
  | some m => if validate m raw then some (m, raw) else none
  | none => none

/-- Per-entry test for the unknown bucket of `_populate_devices`: known
discriminant failing validation, or unresolved discriminant. -/
def is_unknown_one (validate : KnownDeviceModel → RawDevice → Bool) (raw : RawDevice) :
    Bool :=
  match device_type_map_get raw.deviceType with
  | some m => !(validate m raw)
  | none => true

/-! ## helpers.py: ReadingsIterator -/

/-- `collections.deque.append` with `maxlen`: appends on the right,
evicting from the left once the length would exceed `maxlen`. -/
def deque_append (maxlen : ℕ) (d : List Bool) (b : Bool) : List Bool :=
  (d ++ [b]).drop (d.length + 1 - maxlen)

/-- helpers.py `ReadingsIterator`: the restart-check flags of a run.
Each `__anext__` first runs `_check_for_log_session_restart` — which fires
(calls `start_log_session`) exactly when `all(self._empty)` — then polls
and appends `readings.range_count == 0` onto the `_empty` deque.  Given
the deque state `d` and the sample counts of the remaining polls, returns
the flag of each restart check in order. -/
def run_polls (n : ℕ) : List Bool → List ℕ → List Bool
  | _, [] => []
  | d, c :: cs => d.all id :: run_polls n (deque_append n d (c == 0)) cs

/-- Restart-check flags of a whole run: the `_empty` deque starts prefilled
with `log_session_reset_count` copies of `False`
(`deque([False] * n, n)`). -/
def restart_flags (n : ℕ) (counts : List ℕ) : List Bool :=
  run_polls n (List.replicate n false) counts

/-- Total number of `start_log_session` invocations over a run of the
iterator: the unconditional call in `__aiter__` before the first poll, plus
one per fired restart check. -/
def session_calls (n : ℕ) (counts : List ℕ) : ℕ :=
  1 + (restart_flags n counts).count true

/-! ## models.py: derived reading accessors -/

/-- Python truthiness of an `Optional[List[...]]` field: `None` and the
empty list are falsy. -/
def truthyList {α : Type} (x : Option (List α)) : Bool :=
  match x with
  | none => false
  | some l => !l.isEmpty

/-- Python `x[-1]` on an `Optional[List[...]]` field: `TypeError` when the
field is `None`, `IndexError` when the list is empty. -/
def pyLastOpt {α : Type} (x : Option (List α)) : Except PyError α :=
  match x with
  | none => .error .typeError
  | some l =>
    match l.getLast? with
    | none => .error .indexError
    | some v => .ok v

/-- Python `a / b` on float-or-None values: `TypeError` when either operand
is `None`, `ZeroDivisionError` when the divisor is zero. -/
def pyDiv (a b : Option ℚ) : Except PyError ℚ :=
  match a, b with
  | some x, some y => if y = 0 then .error .zeroDivisionError else .ok (x / y)
  | _, _ => .error .typeError

/-- Python `max` over a list of float-or-None values: pairwise comparison
from the left; any comparison involving `None` raises `TypeError`; the
empty sequence raises `ValueError`; a singleton is returned unchanged. -/
def pyMax (vs : List (Option ℚ)) : Except PyError (Option ℚ) :=
  match vs with
  | [] => .error (.valueError "max arg is an empty sequence")
  | v :: rest =>
    rest.foldlM (fun acc w =>
      match acc, w with
      | some a, some b => .ok (some (max a b))
      | _, _ => .error .typeError) v

/-- models.py `DeviceReadingsWaterHeater`, restricted to the fields its
derived accessors `energy_ratio` and `output_temp` consult.  All of these
are required-but-nullable on the wire (`Optional[...]` annotations);
`OptionalFloatList` elements are themselves nullable. -/
structure DeviceReadingsWaterHeater where
  sample_seconds : Option (List ℤ)
  available_energy : Option (List (Option ℚ))
  max_energy : Option (List (Option ℚ))
  temp_sensor1 : Option (List (Option ℚ))
  temp_sensor2 : Option (List (Option ℚ))
  temp_sensor3 : Option (List (Option ℚ))
  temp_sensor4 : Option (List (Option ℚ))
  temp_sensor5 : Option (List (Option ℚ))
  temp_sensor6 : Option (List (Option ℚ))
deriving Repr

/-- models.py `DeviceReadingsWaterHeater.energy_ratio`:
`(self.available_energy[-1] / self.max_energy[-1]) * 100` guarded by
`if self.sample_seconds:`; implicit `return None` otherwise. -/
def energy_ratio (r : DeviceReadingsWaterHeater) : Except PyError (Option ℚ) :=
  if truthyList r.sample_seconds then do
    let a ← pyLastOpt r.available_energy
    let m ← pyLastOpt r.max_energy
    let q ← pyDiv a m
    return some (q * 100)
  else .ok none

/-- models.py `DeviceReadingsWaterHeater.output_temp`:
`max([self.temp_sensor1[-1], ..., self.temp_sensor6[-1]])` guarded by
`if self.sample_seconds:`; implicit `return None` otherwise. -/
def output_temp (r : DeviceReadingsWaterHeater) : Except PyError (Option ℚ) :=
  if truthyList r.sample_seconds then do
    let v1 ← pyLastOpt r.temp_sensor1
    let v2 ← pyLastOpt r.temp_sensor2
    let v3 ← pyLastOpt r.temp_sensor3
    let v4 ← pyLastOpt r.temp_sensor4
    let v5 ← pyLastOpt r.temp_sensor5
    let v6 ← pyLastOpt r.temp_sensor6
    pyMax [v1, v2, v3, v4, v5, v6]
  else .ok none

/-- models.py `_device_energy_sample_to_power`: the generated accessor
returns `energy_to_power(energy_samples[-1], self.sample_seconds[-1])`
guarded by `if self.sample_seconds:`; implicit `return None` otherwise.
The attributes carrying power accessors are typed `Optional[List[float]]`,
so `energy_samples` is an optional list of (non-null) floats. -/
def device_energy_sample_to_power (energy_samples : Option (List ℚ))
    (sample_seconds : Option (List ℤ)) : Except PyError (Option ℚ) :=
  if truthyList sample_seconds then do
    let e ← pyLastOpt energy_samples
    let s ← pyLastOpt sample_seconds
    let p ← energy_to_power e (s : ℚ)
    return some p
  else .ok none

/-! ## Theorems -/

/-- C5: for every energy value `e` and interval `s`, if `s > 0` then
`energy_to_power e s = e * 3.6 / s` (so `energy_to_power 5 5 = 3.6`), and if
`s ≤ 0` then `energy_to_power` fails with a `ValueError` (the library's
invalid-argument error) rather than returning a value. -/
theorem energy_to_power_spec :
    energy_to_power 5 5 = .ok (36 / 10) ∧
    (∀ e s : ℚ, 0 < s → energy_to_power e s = .ok (e * (36 / 10) / s)) ∧
    (∀ e s : ℚ, s ≤ 0 →
      energy_to_power e s = .error (.valueError "Seconds must be a positive float.")) := by
  refine ⟨?_, ?_, ?_⟩
  · norm_num [energy_to_power, KWH_TO_KW]
  · intro e s hs
    rw [energy_to_power, if_neg (by linarith), KWH_TO_KW]
  · intro e s hs
    rw [energy_to_power, if_pos hs]

/-- Witness for `energy_to_power_spec` at concrete inputs. -/
theorem energy_to_power_spec_witness :
    energy_to_power 5 5 = .ok (5 * (36 / 10) / 5) ∧
    energy_to_power 1 (-2) = .error (.valueError "Seconds must be a positive float.") :=
  ⟨energy_to_power_spec.2.1 5 5 (by norm_num),
   energy_to_power_spec.2.2 1 (-2) (by norm_num)⟩

/-- C2: `Login.expires w = created + expire_minutes minutes - w seconds`,
and `_ensure_token` performs a (re-)login exactly when no token is held
(`None` or empty jwt) or the current time is strictly after the expiry
instant; in particular a login created at `T` with `validMinutes = 30` and
`expiryWindow = 60` expires at `T + 29` minutes, and a request one second
after that triggers re-login. -/
theorem login_expiry_and_relogin_condition :
    (∀ (l : Login) (w : ℤ), l.expires w = l.created + (l.expire_minutes * 60 - w)) ∧
    (∀ (jwt : Option String) (expires now : ℤ),
      ensure_token_relogins jwt expires now = true ↔
        (jwt = none ∨ jwt = some "" ∨ expires < now)) ∧
    (∀ T : ℤ, (Login.mk "ok" 30 "tok" T).expires 60 = T + 29 * 60) ∧
    (∀ T : ℤ, ensure_token_relogins (some "tok")
      ((Login.mk "ok" 30 "tok" T).expires 60) (T + 29 * 60 + 1) = true) := by
  refine ⟨fun l w => rfl, ?_, ?_, ?_⟩
  · intro jwt expires now
    cases jwt with
    | none => simp [ensure_token_relogins]
    | some s =>
      simp only [ensure_token_relogins, Bool.or_eq_true, decide_eq_true_eq,
        String.isEmpty_iff, Option.some.injEq, reduceCtorEq, false_or]
  · intro T
    show T + (30 * 60 - 60) = T + 29 * 60
    ring
  · intro T
    simp only [ensure_token_relogins, Login.expires, Bool.or_eq_true, decide_eq_true_eq]
    right
    omega

/-- C8: `login` raises an auth error iff the response status is not `"ok"`;
the error carries the server-supplied `error` field, defaulting to
`"Login failed"`; in particular status `"failed"` with error
`"bad password"` yields an auth error with message `"bad password"`. -/
theorem login_auth_error_iff_status_not_ok :
    (∀ (data : LoginResponse) (now : ℤ),
      (∃ msg, login data now = .error (.authError msg)) ↔ data.status ≠ some "ok") ∧
    (∀ (data : LoginResponse) (now : ℤ), data.status ≠ some "ok" →
      login data now = .error (.authError (data.error.getD "Login failed"))) ∧
    login ⟨some "failed", some "bad password", none, none⟩ 0 =
      .error (.authError "bad password") := by
  refine ⟨?_, ?_, by rfl⟩
  · intro data now
    constructor
    · rintro ⟨msg, hmsg⟩ hok
      rw [login, if_neg (by simp [hok])] at hmsg
      rcases h1 : data.status with _ | st <;> rcases h2 : data.expireMins with _ | em <;>
        rcases h3 : data.jwt with _ | j <;> simp [h1, h2, h3, hok] at hmsg
    · intro hne
      exact ⟨data.error.getD "Login failed", by rw [login, if_pos hne]⟩
  · intro data now hne
    rw [login, if_pos hne]

/-- Witness for `login_auth_error_iff_status_not_ok` at a concrete response. -/
theorem login_auth_error_iff_status_not_ok_witness :
    login ⟨some "failed", some "bad password", none, none⟩ 0 =
      .error (.authError ((some "bad password").getD "Login failed")) :=
  login_auth_error_iff_status_not_ok.2.1 ⟨some "failed", some "bad password", none, none⟩ 0
    (by decide)

/-- The devices bucket of `_populate_devices` is the input list filtered
through the per-entry decode outcome, in input order. -/
theorem populate_devices_fst (validate : KnownDeviceModel → RawDevice → Bool)
    (raws : List RawDevice) :
    (populate_devices validate raws).1 = raws.filterMap (decode_one validate) := by
  induction raws with
  | nil => rfl
  | cons raw rest ih =>
    rw [populate_devices, List.filterMap_cons]
    cases h : device_type_map_get raw.deviceType with
    | none => simpa [decode_one, h] using ih
    | some m =>
      cases hv : validate m raw with
      | false => simpa [decode_one, h, hv] using ih
      | true => simpa [decode_one, h, hv] using ih

/-- The unknown bucket of `_populate_devices` is the input list filtered by
the per-entry unknown test, in input order. -/
theorem populate_devices_snd (validate : KnownDeviceModel → RawDevice → Bool)
    (raws : List RawDevice) :
    (populate_devices validate raws).2 = raws.filter (is_unknown_one validate) := by
  induction raws with
  | nil => rfl
  | cons raw rest ih =>
    rw [populate_devices, List.filter_cons]
    cases h : device_type_map_get raw.deviceType with
    | none => simpa [is_unknown_one, h] using ih
    | some m =>
      cases hv : validate m raw with
      | false => simpa [is_unknown_one, h, hv] using ih
      | true => simpa [is_unknown_one, h, hv] using ih

/-- Every input entry lands in exactly one of the two buckets. -/
theorem populate_devices_length (validate : KnownDeviceModel → RawDevice → Bool)
    (raws : List RawDevice) :
    (populate_devices validate raws).1.length + (populate_devices validate raws).2.length
      = raws.length := by
  induction raws with
  | nil => rfl
  | cons raw rest ih =>
    rw [populate_devices]
    cases h : device_type_map_get raw.deviceType with
    | none => simp only [h, List.length_cons]; omega
    | some m =>
      cases hv : validate m raw with
      | false => simp only [h, hv, List.length_cons, Bool.false_eq_true, if_false]; omega
      | true => simp only [h, hv, List.length_cons, if_true]; omega

/-- C1: `_populate_devices` partitions every raw device list without raising:
it is a total function returning `([], [])` on the empty list; the devices
bucket is exactly the input entries whose discriminant is known and whose
structural validation succeeds (decoded, in input order), the unknown bucket
is exactly the remaining entries verbatim (known discriminant failing
validation, or unrecognized discriminant), and the two bucket sizes sum to
the input size, so each entry is placed in exactly one bucket. -/
theorem populate_devices_partitions_input :
    (∀ validate, populate_devices validate [] = ([], [])) ∧
    (∀ validate raws,
      (populate_devices validate raws).1 = raws.filterMap (decode_one validate)) ∧
    (∀ validate raws,
      (populate_devices validate raws).2 = raws.filter (is_unknown_one validate)) ∧
    (∀ validate raws,
      (populate_devices validate raws).1.length + (populate_devices validate raws).2.length
        = raws.length) :=
  ⟨fun _ => rfl, populate_devices_fst, populate_devices_snd, populate_devices_length⟩

/-- C10: a raw entry whose `deviceType` is anything other than the six
registered discriminants — including the other `DeviceType` enum values and
a missing field — is appended verbatim to the unknown bucket and is never
decoded: every decoded device in the devices bucket carries a discriminant
that resolves in `DEVICE_TYPE_MAP`. -/
theorem unrecognized_discriminants_to_unknown :
    ((["BATTERY", "MONITOR", "TANKPAK", "SOLAR_PRED", "ENERGY_PRED",
       "DRED_RECEIVER", "POOL_HEATER", "TOTAL"].all
        (fun s => decide (device_type_map_get (some s) = none))) = true) ∧
    device_type_map_get none = none ∧
    (∀ validate raws raw, raw ∈ raws → device_type_map_get raw.deviceType = none →
      raw ∈ (populate_devices validate raws).2) ∧
    (∀ validate raws p, p ∈ (populate_devices validate raws).1 →
      device_type_map_get p.2.deviceType = some p.1) := by
  refine ⟨by decide, rfl, ?_, ?_⟩
  · intro validate raws raw hmem hget
    rw [populate_devices_snd]
    exact List.mem_filter.mpr ⟨hmem, by simp [is_unknown_one, hget]⟩
  · intro validate raws p hp
    rw [populate_devices_fst] at hp
    obtain ⟨raw, hraw, hdec⟩ := List.mem_filterMap.mp hp
    cases h : device_type_map_get raw.deviceType with
    | none => simp [decode_one, h] at hdec
    | some m =>
      cases hv : validate m raw with
      | false => simp [decode_one, h, hv] at hdec
      | true =>
        simp only [decode_one, h, hv, if_true, Option.some.injEq] at hdec
        subst hdec
        exact h

/-- Witness for `unrecognized_discriminants_to_unknown` at a concrete entry
with discriminant `"BATTERY"`. -/
theorem unrecognized_discriminants_to_unknown_witness :
    (⟨some "BATTERY", 0⟩ : RawDevice) ∈
      (populate_devices (fun _ _ => true) [⟨some "BATTERY", 0⟩]).2 :=
  unrecognized_discriminants_to_unknown.2.2.1 (fun _ _ => true)
    [⟨some "BATTERY", 0⟩] ⟨some "BATTERY", 0⟩ (by decide) (by decide)

/-- C4 counterexample: the claim says `last_readings` fails whenever the
duration is not strictly positive, but a strictly negative duration
(`hours = -1`) passes the `not delta.total_seconds()` check and produces a
request with a future `rangeStart`. -/
theorem last_readings_negative_duration_accepted :
    ((-1 : ℚ) * 3600 + 0 * 60 + 0 < 0) ∧
    last_readings 0 (-1) 0 0 5 = .ok ⟨some 3600, none, 5⟩ := by
  constructor
  · norm_num
  · simp only [last_readings]
    norm_num

/-- C4 (amended): `last_readings` fails with a `ValueError` (the library's
invalid-argument error) exactly when the combined duration is zero; for any
nonzero duration — positive or negative — it requests
`rangeStart = now - duration` with `rangeEnd` omitted. -/
theorem last_readings_zero_duration_check :
    ∀ (now hours minutes seconds : ℚ) (increment : ℤ),
      (hours * 3600 + minutes * 60 + seconds = 0 →
        last_readings now hours minutes seconds increment =
          .error (.valueError "Either a time range must be provided")) ∧
      (hours * 3600 + minutes * 60 + seconds ≠ 0 →
        last_readings now hours minutes seconds increment =
          .ok ⟨some (now - (hours * 3600 + minutes * 60 + seconds)), none, increment⟩) := by
  intro now hours minutes seconds increment
  constructor
  · intro h
    simp only [last_readings]
    rw [if_pos h]
  · intro h
    simp only [last_readings]
    rw [if_neg h]

/-- Witness for `last_readings_zero_duration_check`: the zero duration is
rejected; a 5-minute duration with a frozen now computes
`rangeStart = now - 300` seconds and omits `rangeEnd`. -/
theorem last_readings_zero_duration_check_witness :
    last_readings 0 0 0 0 5 = .error (.valueError "Either a time range must be provided") ∧
    last_readings 0 0 5 0 5 = .ok ⟨some (0 - (0 * 3600 + 5 * 60 + 0)), none, 5⟩ :=
  ⟨(last_readings_zero_duration_check 0 0 0 0 5).1 (by norm_num),
   (last_readings_zero_duration_check 0 0 5 0 5).2 (by norm_num)⟩

/-- Appending to an always-full bounded deque keeps its length. -/
theorem deque_append_length (n : ℕ) (d : List Bool) (b : Bool) (h : d.length = n) :
    (deque_append n d b).length = n := by
  simp only [deque_append, List.length_drop, List.length_append, List.length_cons,
    List.length_nil, h]
  omega

/-- The restart-check flag before the `k+1`-st poll is the `all` test over
the deque contents at that point: the last `n` entries of the prefill
followed by the recorded emptiness bits of the first `k` polls. -/
theorem run_polls_flag (n : ℕ) :
    ∀ (cs : List ℕ) (d : List Bool), d.length = n → ∀ k, k < cs.length →
      (run_polls n d cs)[k]? =
        some (((d ++ (cs.take k).map (fun c => c == 0)).drop k).all id)
  | [], _, _, k, hk => absurd hk (by simp)
  | c :: cs, d, hd, 0, _ => by
    simp [run_polls]
  | c :: cs, d, hd, k + 1, hk => by
    have hd' : (deque_append n d (c == 0)).length = n := deque_append_length n d _ hd
    rw [run_polls, List.getElem?_cons_succ,
      run_polls_flag n cs _ hd' k (by simpa using hk)]
    have hstep : deque_append n d (c == 0) ++ (cs.take k).map (fun x => x == 0)
        = (d ++ (c == 0) :: (cs.take k).map (fun x => x == 0)).drop 1 := by
      rw [deque_append, hd, Nat.add_sub_cancel_left,
        ← List.drop_append_of_le_length (by simp), List.append_assoc,
        List.singleton_append]
    rw [hstep, List.drop_drop, List.take_succ_cons, List.map_cons, Nat.add_comm 1 k]

/-- `all` with the identity over a boolean image is `all` of the map. -/
theorem all_map_id {α : Type} (l : List α) (f : α → Bool) :
    (l.map f).all id = l.all f := by
  induction l with
  | nil => rfl
  | cons a l ih => simp [List.all_cons, ih]

/-- The `all` test over the prefilled deque contents: true exactly when at
least `n` outcomes have been recorded and the `n` most recent of them are
all true. -/
theorem replicate_false_append_all (n k : ℕ) (bs : List Bool) :
    ((List.replicate n false ++ bs).drop k).all id =
      (decide (n ≤ k) && (bs.drop (k - n)).all id) := by
  rcases le_or_lt n k with h | h
  · have h1 : (List.replicate n false ++ bs).drop k = bs.drop (k - n) := by
      calc (List.replicate n false ++ bs).drop k
          = (List.replicate n false ++ bs).drop ((List.replicate n false).length + (k - n)) := by
            congr 1
            simp only [List.length_replicate]
            omega
        _ = bs.drop (k - n) := List.drop_append _
    rw [h1, decide_eq_true h, Bool.true_and]
  · have h1 : (List.replicate n false ++ bs).drop k = List.replicate (n - k) false ++ bs := by
      rw [List.drop_append_of_le_length (by simp only [List.length_replicate]; omega),
        List.drop_replicate]
    rw [h1, decide_eq_false (by omega), Bool.false_and, Bool.eq_false_iff]
    intro hall
    have hfalse := List.all_eq_true.mp hall false
      (List.mem_append_left _ (List.mem_replicate.mpr ⟨by omega, rfl⟩))
    simp at hfalse

/-- C3: in every run of the `ReadingsIterator` with empty-history capacity
`n`, `start_log_session` is invoked exactly once before the first poll (the
unconditional call on first activation), and the conditional check before
the `k+1`-st poll fires exactly when at least `n` poll outcomes have been
recorded and the `n` most recent all had zero sample count; for the sample
counts `[1,1,0,0,3]` with `n = 2` it is invoked exactly twice, before the
first and before the fifth poll. -/
theorem readings_iterator_restart_schedule :
    (∀ n : ℕ, session_calls n [] = 1) ∧
    (∀ (n : ℕ) (counts : List ℕ) (k : ℕ), k < counts.length →
      (restart_flags n counts)[k]? =
        some (decide (n ≤ k) && ((counts.take k).drop (k - n)).all (fun c => c == 0))) ∧
    restart_flags 2 [1, 1, 0, 0, 3] = [false, false, false, false, true] ∧
    session_calls 2 [1, 1, 0, 0, 3] = 2 := by
  refine ⟨fun n => rfl, ?_, by decide, by decide⟩
  intro n counts k hk
  rw [restart_flags, run_polls_flag n counts (List.replicate n false) (by simp) k hk]
  rw [replicate_false_append_all n k _, ← List.map_drop, all_map_id]

/-- Witness for `readings_iterator_restart_schedule` at the fifth poll of
the `[1,1,0,0,3]` run with capacity 2. -/
theorem readings_iterator_restart_schedule_witness :
    (restart_flags 2 [1, 1, 0, 0, 3])[4]? =
      some (decide (2 ≤ 4) && (([1, 1, 0, 0, 3].take 4).drop 2).all (fun c => c == 0)) :=
  readings_iterator_restart_schedule.2.1 2 [1, 1, 0, 0, 3] 4 (by decide)

/-- C9: a timeout from the LogSessionStart request is not propagated:
`start_log_session` returns `true`; a successful response returns `true`
iff its `status` field equals `"ok"`. -/
theorem start_log_session_timeout_and_status :
    start_log_session (.error .timeoutError) = .ok true ∧
    (∀ data : StatusResponse,
      start_log_session (.ok data) = .ok (data.status == some "ok")) ∧
    (∀ data : StatusResponse,
      start_log_session (.ok data) = .ok true ↔ data.status = some "ok") := by
  refine ⟨rfl, fun data => rfl, ?_⟩
  intro data
  simp only [start_log_session, Except.ok.injEq, beq_iff_eq]

/-- Reduction of a successful bind in the `Except` monad. -/
theorem except_ok_bind {ε α β : Type} (a : α) (f : α → Except ε β) :
    (Except.ok a : Except ε α) >>= f = f a := rfl

/-- Reduction of a failing bind in the `Except` monad. -/
theorem except_error_bind {ε α β : Type} (e : ε) (f : α → Except ε β) :
    (Except.error e : Except ε α) >>= f = Except.error e := rfl

/-- Reduction of `Functor.map` over a successful `Except` value. -/
theorem except_map_ok {ε α β : Type} (g : α → β) (a : α) :
    g <$> (Except.ok a : Except ε α) = Except.ok (g a) := rfl

/-- Reduction of `Functor.map` over a failing `Except` value. -/
theorem except_map_error {ε α β : Type} (g : α → β) (e : ε) :
    g <$> (Except.error e : Except ε α) = Except.error e := rfl

/-- C6 counterexample: with a non-empty interval sequence and the last
`maxEnergy` sample equal to zero, `energy_ratio` evaluates
`available_energy[-1] / max_energy[-1]` and faults with a
`ZeroDivisionError`, contradicting the claim that the accessor never
faults with a division-by-zero error. -/
theorem energy_ratio_zero_division_fault :
    energy_ratio
      ⟨some [5], some [some 300], some [some 0],
       some [some 20], some [some 20], some [some 20],
       some [some 20], some [some 20], some [some 20]⟩ =
      .error .zeroDivisionError := by
  simp [energy_ratio, truthyList, pyLastOpt, pyDiv, except_ok_bind, except_error_bind,
    except_map_ok, except_map_error]

/-- C6 (amended): when the interval-length sequence is empty or absent both
derived accessors return an absent value (and cannot fault); when it is
non-empty, `energy_ratio` equals `last(availableEnergy) / last(maxEnergy)
* 100` provided both last samples are present and the divisor is nonzero
(a zero last `maxEnergy` sample faults with `ZeroDivisionError`), and
`output_temp` equals the maximum of the six sensors' last values provided
all six are present. -/
theorem water_heater_derived_accessors :
    ∀ r : DeviceReadingsWaterHeater,
      (truthyList r.sample_seconds = false →
        energy_ratio r = .ok none ∧ output_temp r = .ok none) ∧
      (∀ a m : ℚ, truthyList r.sample_seconds = true →
        pyLastOpt r.available_energy = .ok (some a) →
        pyLastOpt r.max_energy = .ok (some m) → m ≠ 0 →
        energy_ratio r = .ok (some (a / m * 100))) ∧
      (∀ v1 v2 v3 v4 v5 v6 : ℚ, truthyList r.sample_seconds = true →
        pyLastOpt r.temp_sensor1 = .ok (some v1) →
        pyLastOpt r.temp_sensor2 = .ok (some v2) →
        pyLastOpt r.temp_sensor3 = .ok (some v3) →
        pyLastOpt r.temp_sensor4 = .ok (some v4) →
        pyLastOpt r.temp_sensor5 = .ok (some v5) →
        pyLastOpt r.temp_sensor6 = .ok (some v6) →
        output_temp r = .ok (some (max (max (max (max (max v1 v2) v3) v4) v5) v6))) := by
  intro r
  refine ⟨?_, ?_, ?_⟩
  · intro h
    exact ⟨by simp [energy_ratio, h], by simp [output_temp, h]⟩
  · intro a m ht ha hm hm0
    simp [energy_ratio, ht, ha, hm, pyDiv, hm0, except_ok_bind, except_map_ok]
  · intro v1 v2 v3 v4 v5 v6 ht h1 h2 h3 h4 h5 h6
    simp [output_temp, ht, h1, h2, h3, h4, h5, h6, pyMax, except_ok_bind, except_map_ok]

/-- Witness for `water_heater_derived_accessors` at the repository's own
test fixture (`availableEnergy` ends in 491.4, `maxEnergy` in 630, sensor
lasts 17.5, 23.5, 50.8, 55.8, 60.3, 68.9). -/
theorem water_heater_derived_accessors_witness :
    energy_ratio
      ⟨some [5, 5], some [some 300, some (2457 / 5)], some [some 630, some 630],
       some [some (33 / 2), some (35 / 2)], some [some (33 / 2), some (47 / 2)],
       some [some (33 / 2), some (254 / 5)], some [some (33 / 2), some (279 / 5)],
       some [some (33 / 2), some (603 / 10)], some [some (33 / 2), some (689 / 10)]⟩ =
      .ok (some (2457 / 5 / 630 * 100)) ∧
    output_temp
      ⟨some [5, 5], some [some 300, some (2457 / 5)], some [some 630, some 630],
       some [some (33 / 2), some (35 / 2)], some [some (33 / 2), some (47 / 2)],
       some [some (33 / 2), some (254 / 5)], some [some (33 / 2), some (279 / 5)],
       some [some (33 / 2), some (603 / 10)], some [some (33 / 2), some (689 / 10)]⟩ =
      .ok (some (max (max (max (max (max (35 / 2) (47 / 2)) (254 / 5)) (279 / 5))
        (603 / 10)) (689 / 10))) :=
  ⟨(water_heater_derived_accessors _).2.1 (2457 / 5) 630 rfl rfl rfl (by norm_num),
   (water_heater_derived_accessors _).2.2 (35 / 2) (47 / 2) (254 / 5) (279 / 5)
     (603 / 10) (689 / 10) rfl rfl rfl rfl rfl rfl rfl⟩

/-- C7 counterexample: with a present, non-empty interval sequence and an
absent referenced energy sequence, the generated power accessor evaluates
`energy_samples[-1]` on `None` and faults with a `TypeError`, instead of
returning an absent value. -/
theorem power_accessor_absent_sequence_fault :
    device_energy_sample_to_power none (some [5]) = .error .typeError := by
  rfl

/-- C7 (amended): the generated power accessor returns an absent value
exactly when the interval-length sequence is empty or absent — with the
sequence present and non-empty the result is never absent: an absent
referenced energy sequence faults with `TypeError` (an empty one with
`IndexError`), a non-positive last interval faults with `ValueError`, and
when both last samples exist with a positive interval the accessor returns
`last(energy) * 3.6 / last(intervalSeconds)`. -/
theorem device_energy_sample_to_power_spec :
    (∀ (es : Option (List ℚ)) (ss : Option (List ℤ)), truthyList ss = false →
      device_energy_sample_to_power es ss = .ok none) ∧
    (∀ (es : Option (List ℚ)) (ss : Option (List ℤ)), truthyList ss = true →
      device_energy_sample_to_power es ss ≠ .ok none) ∧
    (∀ ss : Option (List ℤ), truthyList ss = true →
      device_energy_sample_to_power none ss = .error .typeError) ∧
    (∀ ss : Option (List ℤ), truthyList ss = true →
      device_energy_sample_to_power (some []) ss = .error .indexError) ∧
    (∀ (es : List ℚ) (l : List ℤ) (e : ℚ) (s : ℤ),
      es.getLast? = some e → l.getLast? = some s → s ≤ 0 →
      device_energy_sample_to_power (some es) (some l) =
        .error (.valueError "Seconds must be a positive float.")) ∧
    (∀ (es : List ℚ) (l : List ℤ) (e : ℚ) (s : ℤ),
      es.getLast? = some e → l.getLast? = some s → 0 < s →
      device_energy_sample_to_power (some es) (some l) =
        .ok (some (e * (36 / 10) / (s : ℚ)))) := by
  refine ⟨?_, ?_, ?_, ?_, ?_, ?_⟩
  · intro es ss h
    simp [device_energy_sample_to_power, h]
  · intro es ss h
    simp only [device_energy_sample_to_power, h, if_true]
    cases hes : pyLastOpt es with
    | error pe => simp [except_error_bind]
    | ok e =>
      cases hss : pyLastOpt ss with
      | error pe => simp [except_ok_bind, except_error_bind]
      | ok s =>
        simp only [except_ok_bind]
        rw [energy_to_power]
        rcases le_or_lt (s : ℚ) 0 with hle | hlt
        · rw [if_pos hle]
          simp [except_map_error]
        · rw [if_neg (not_le.mpr hlt)]
          simp [except_map_ok]
  · intro ss h
    simp [device_energy_sample_to_power, h, pyLastOpt, except_error_bind]
  · intro ss h
    simp [device_energy_sample_to_power, h, pyLastOpt, except_error_bind]
  · intro es l e s hes hl hs
    have hne : l ≠ [] := by
      intro h
      subst h
      simp at hl
    have ht : truthyList (some l) = true := by
      simp [truthyList, List.isEmpty_iff, hne]
    have hcast : (s : ℚ) ≤ 0 := by
      exact_mod_cast hs
    simp only [device_energy_sample_to_power, ht, pyLastOpt, hes, hl,
      energy_to_power, if_true, except_ok_bind]
    rw [if_pos hcast]
    rfl
  · intro es l e s hes hl hs
    have hne : l ≠ [] := by
      intro h
      subst h
      simp at hl
    have ht : truthyList (some l) = true := by
      simp [truthyList, List.isEmpty_iff, hne]
    have hpos : ¬((s : ℚ) ≤ 0) := by
      push_neg
      exact_mod_cast hs
    simp only [device_energy_sample_to_power, ht, pyLastOpt, hes, hl,
      energy_to_power, KWH_TO_KW, if_true, except_ok_bind]
    rw [if_neg hpos]
    rfl

/-- Witness for `device_energy_sample_to_power_spec` at the repository's
own test inputs (`energy_readings = [2.3, 5.0]`, `sample_seconds = [5, 5]`,
giving 3.6 kW) and at a zero last interval (faulting with `ValueError`). -/
theorem device_energy_sample_to_power_spec_witness :
    device_energy_sample_to_power (some [23 / 10, 5]) (some [5, 5]) =
      .ok (some (5 * (36 / 10) / ((5 : ℤ) : ℚ))) ∧
    device_energy_sample_to_power (some [5]) (some [0]) =
      .error (.valueError "Seconds must be a positive float.") :=
  ⟨device_energy_sample_to_power_spec.2.2.2.2.2 [23 / 10, 5] [5, 5] 5 5 rfl rfl
     (by decide),
   device_energy_sample_to_power_spec.2.2.2.2.1 [5] [0] 5 0 rfl rfl (by decide)⟩

end CombinedEnergy
